import Mathlib

/-!
Verification of the conversation-context and cumulative-summarization core of
the `william` Telegram community bot (Go repository `xdefrag/william`).

The Go code is shallowly embedded: pure functions become Lean functions, the
durable stores (messages, summaries, message counters, allowed chats) become
explicit state records threaded through the handlers, the Telegram and LLM
boundaries become oracle parameters (`Except String _` valued functions), and
`*int64` nullable columns become `Option Int`.  Wall-clock timestamps
(`time.Now()`, `CreatedAt`) are irrelevant to every property proved here and
are not modelled.  Go byte-indexed string slicing is modelled by character
indexing (the configured mention token is ASCII).

Sources embedded (newest versions of each file):
  internal/bot/handlers.go   - Listener.handleMessage, getTopicID,
                               getMessageText, isMentionOrReply,
                               publishSummarizeEvent, publishMentionEvent,
                               Handlers.sendResponse, saveBotMessage
  internal/context (part_016) - TopicKey, Summarizer.SummarizeChat,
                               summarizeTopicMessages, SummarizeChatTopic,
                               SummarizeAllActiveChats
  internal/context (part_018) - Builder.BuildContextForResponse
  internal/repo/repository.go - GetLatestMessagesByChatID
  internal/gpt/client.go      - response-parse handling, cumulative prompt
  pkg/models (part_025)       - Message, ChatSummary, UserSummary

Repository functions whose newest bodies are absent from the snapshot
(only their callers are present) are modelled from the spec and carry a
doc comment saying so.
-/

/-- `pkg/models.Message` (newest version): one stored chat message.
The serial row id is assigned by the store; `topicID` mirrors the nullable
`topic_id` column (`*int64`). `createdAt` (wall clock) is not modelled. -/
structure Message where
  id : Int
  telegramMsgID : Int
  chatID : Int
  userID : Int
  topicID : Option Int
  isBot : Bool
  userFirstName : String
  userLastName : Option String
  username : Option String
  text : Option String
  deriving DecidableEq, Repr

/-- `pkg/models.Event`: an upcoming event emitted by the model. -/
structure EventItem where
  title : String
  date : Option String
  deriving DecidableEq, Repr

/-- `pkg/models.ChatSummary` (newest version): one row per (chat id, topic id).
The JSON maps are modelled as association lists with the closed value types
the code actually stores (topic-label frequency counts). -/
structure ChatSummary where
  id : Int
  chatID : Int
  topicID : Option Int
  summary : String
  topicsJSON : List (String × Int)
  nextEvents : Option String
  nextEventsJSON : List EventItem
  deriving DecidableEq, Repr

/-- `pkg/models.UserSummary` (newest version): one row per (chat id, user id). -/
structure UserSummary where
  id : Int
  chatID : Int
  userID : Int
  username : Option String
  firstName : Option String
  lastName : Option String
  likesJSON : List (String × Int)
  dislikesJSON : List (String × Int)
  competenciesJSON : List (String × Int)
  traitsJSON : List (String × String)
  deriving DecidableEq, Repr

/-- `internal/bot.SummarizeEvent` (events.go): the payload published on the
"summarize" bus topic. The wall-clock `Timestamp` field is not modelled. -/
structure SummarizeEvent where
  chatID : Int
  topicID : Option Int
  deriving DecidableEq, Repr

/-- `internal/bot.MentionEvent` (events.go): payload published on "mention". -/
structure MentionEvent where
  chatID : Int
  topicID : Option Int
  userID : Int
  userName : String
  username : String
  lastName : String
  messageID : Int
  text : String
  deriving DecidableEq, Repr

/-- `telego.User`: the inbound platform sender record. -/
structure TelegoUser where
  id : Int
  isBot : Bool
  firstName : String
  lastName : String
  username : String
  deriving DecidableEq, Repr

/-- `telego.MessageEntity`: entity annotations on the raw message text. -/
structure TelegoEntity where
  entityType : String
  offset : Nat
  length : Nat
  deriving DecidableEq, Repr

/-- The `From` field of a replied-to `telego.Message` (may be absent). -/
structure TelegoReply where
  fromUser : Option TelegoUser
  deriving DecidableEq, Repr

/-- `telego.Message`: the raw inbound platform message. `messageThreadID` is
the raw thread id (0 for the chat's general stream, exactly as in Telegram). -/
structure TelegoMessage where
  messageID : Int
  chatID : Int
  messageThreadID : Int
  fromUser : TelegoUser
  text : String
  caption : String
  entities : List TelegoEntity
  replyToMessage : Option TelegoReply
  deriving DecidableEq, Repr

/-- `telego.User` result of `bot.GetMe`. -/
structure BotInfo where
  id : Int
  username : String
  firstName : String
  deriving DecidableEq, Repr

/-- The configuration knobs the ingestion path reads
(`config.App.Limits.MaxMsgBuffer`, `config.App.App.MentionUsername`). -/
structure ListenerConfig where
  maxMsgBuffer : Nat
  mentionUsername : String
  deriving Repr

/-- External boundary of the listener: `bot.GetMe` (may fail). -/
structure ListenerEnv where
  getMe : Except String BotInfo

/-- Durable state touched by `Listener.handleMessage`, plus the events
published on the bus (recorded in publish order).  `messages` is the
append-only messages table, kept in insertion order, so row ids are the
serial ids in ascending order.  `counters` is the `message_counters` table:
one row per (chat id, topic id). -/
structure ListenerState where
  messages : List Message
  nextMsgID : Int
  counters : List ((Int × Option Int) × Nat)
  allowedChats : List Int
  summarizeEvents : List SummarizeEvent
  mentionEvents : List MentionEvent
  deriving DecidableEq, Repr

/-- Value of the message counter row for a key (0 when the row is absent,
matching the table DEFAULT). -/
def counterValue (cs : List ((Int × Option Int) × Nat)) (k : Int × Option Int) : Nat :=
  match cs.find? (fun p => p.1 == k) with
  | some p => p.2
  | none => 0

/-- Store a counter value for a key (insert the row or overwrite it). -/
def setCounter (cs : List ((Int × Option Int) × Nat)) (k : Int × Option Int) (v : Nat) :
    List ((Int × Option Int) × Nat) :=
  if cs.any (fun p => p.1 == k) then
    cs.map (fun p => if p.1 == k then (k, v) else p)
  else
    cs ++ [(k, v)]

/-- Modelled from the spec: `repo.IncrementMessageCounter` is absent from the
snapshot (only its caller `handleMessage` is present).  Per spec section 4.1 and 9
it is a single atomic store-level "increment and return the new value" upsert
keyed by (chat id, topic id). -/
def incrementMessageCounter (cs : List ((Int × Option Int) × Nat))
    (chatID : Int) (topicID : Option Int) : Nat × List ((Int × Option Int) × Nat) :=
  let n := counterValue cs (chatID, topicID) + 1
  (n, setCounter cs (chatID, topicID) n)

/-- Modelled from the spec: `repo.ResetMessageCounter` is absent from the
snapshot.  Per spec section 4.1 it resets the (chat id, topic id) counter row to 0. -/
def resetMessageCounter (cs : List ((Int × Option Int) × Nat))
    (chatID : Int) (topicID : Option Int) : List ((Int × Option Int) × Nat) :=
  setCounter cs (chatID, topicID) 0

/-- `Listener.getMessageText`: text, else caption, else empty. -/
def getMessageText (msg : TelegoMessage) : String :=
  if msg.text ≠ "" then msg.text
  else if msg.caption ≠ "" then msg.caption
  else ""

/-- `Listener.getTopicID`: always returns a non-nil pointer to the raw
`MessageThreadID` (0 for the general stream). -/
def getTopicID (msg : TelegoMessage) : Option Int :=
  some msg.messageThreadID

/-- The slice `msg.Text[entity.Offset : entity.Offset+entity.Length]`
(character-indexed; the mention token is ASCII). -/
def entityText (text : String) (e : TelegoEntity) : String :=
  String.mk ((text.toList.drop e.offset).take e.length)

/-- `Listener.isMentionOrReply`: a mention entity equal to the configured
mention token, or a reply to a message authored by the bot itself
(checked against `GetMe`; `GetMe` failure yields false). -/
def isMentionOrReply (cfg : ListenerConfig) (env : ListenerEnv) (msg : TelegoMessage) : Bool :=
  if msg.entities.any (fun e =>
      e.entityType == "mention" && entityText msg.text e == cfg.mentionUsername) then
    true
  else
    match msg.replyToMessage with
    | some r =>
      match r.fromUser with
      | some u =>
        match env.getMe with
        | .error _ => false
        | .ok info => u.isBot && u.username == info.username
      | none => false
    | none => false

/-- `Listener.publishSummarizeEvent`: append the event on the "summarize" topic. -/
def publishSummarizeEvent (s : ListenerState) (chatID : Int) (topicID : Option Int) :
    ListenerState :=
  { s with summarizeEvents := s.summarizeEvents ++ [{ chatID := chatID, topicID := topicID }] }

/-- `Listener.publishMentionEvent`: append the event on the "mention" topic. -/
def publishMentionEvent (s : ListenerState) (msg : TelegoMessage) : ListenerState :=
  { s with mentionEvents := s.mentionEvents ++
      [{ chatID := msg.chatID
         topicID := getTopicID msg
         userID := msg.fromUser.id
         userName := msg.fromUser.firstName
         username := msg.fromUser.username
         lastName := msg.fromUser.lastName
         messageID := msg.messageID
         text := msg.text }] }

/-- `repo.SaveMessage`: append the row, assigning the next serial id. -/
def saveMessage (s : ListenerState) (row : Message) : ListenerState :=
  { s with messages := s.messages ++ [{ row with id := s.nextMsgID }]
           nextMsgID := s.nextMsgID + 1 }

/-- `repo.IsAllowedChat`: EXISTS query on the `allowed_chats` table. -/
def isAllowedChat (s : ListenerState) (chatID : Int) : Bool :=
  s.allowedChats.contains chatID

/-- The `models.Message` row built by `Listener.handleMessage` for a valid
inbound message (the serial id is assigned by `saveMessage`). -/
def ingestedRow (msg : TelegoMessage) (messageText : String) : Message :=
  { id := 0
    telegramMsgID := msg.messageID
    chatID := msg.chatID
    userID := msg.fromUser.id
    topicID := getTopicID msg
    isBot := false
    userFirstName := msg.fromUser.firstName
    userLastName := if msg.fromUser.lastName ≠ "" then some msg.fromUser.lastName else none
    username := if msg.fromUser.username ≠ "" then some msg.fromUser.username else none
    text := some messageText }

/-- `Listener.handleMessage` (newest version, handlers.go): discard messages
with no text/caption or from bots or from non-allow-listed chats; otherwise
persist the row, publish a mention event when addressed, atomically increment
the (chat, topic) counter (`inc.1` is the returned new count, `inc.2` the
updated table) and, at the threshold, reset it and publish a summarize event
scoped to that exact key.  Store errors are not modelled (every store call
succeeds). -/
def handleMessage (cfg : ListenerConfig) (env : ListenerEnv)
    (s : ListenerState) (msg : TelegoMessage) : ListenerState :=
  let messageText := getMessageText msg
  if messageText == "" || msg.fromUser.isBot then s
  else if !(isAllowedChat s msg.chatID) then s
  else
    let s1 := saveMessage s (ingestedRow msg messageText)
    let s2 := if isMentionOrReply cfg env msg then publishMentionEvent s1 msg else s1
    let topicID := getTopicID msg
    let inc := incrementMessageCounter s2.counters msg.chatID topicID
    let s3 := { s2 with counters := inc.2 }
    if cfg.maxMsgBuffer ≤ inc.1 then
      let s4 := { s3 with counters := resetMessageCounter s3.counters msg.chatID topicID }
      publishSummarizeEvent s4 msg.chatID topicID
    else s3

/-- Sequential ingestion of a list of platform messages. -/
def ingest (cfg : ListenerConfig) (env : ListenerEnv)
    (s : ListenerState) (msgs : List TelegoMessage) : ListenerState :=
  msgs.foldl (handleMessage cfg env) s

/-! ### Helper lemmas about the counter store and threshold arithmetic -/

theorem find?_setCounter_map (cs : List ((Int × Option Int) × Nat))
    (k : Int × Option Int) (v : Nat) (h : cs.any (fun p => p.1 == k) = true) :
    (cs.map (fun p => if p.1 == k then (k, v) else p)).find? (fun p => p.1 == k)
      = some (k, v) := by
  induction cs with
  | nil => simp at h
  | cons q rest ih =>
    rw [List.map_cons]
    by_cases hq : (q.1 == k) = true
    · rw [if_pos hq]
      exact List.find?_cons_of_pos _ (by simp)
    · rw [if_neg hq]
      have hq' : (q.1 == k) = false := by simpa using hq
      have hr : rest.any (fun r => r.1 == k) = true := by
        simpa [List.any_cons, hq'] using h
      simp only [List.find?, hq']
      exact ih hr

theorem find?_setCounter_append (cs : List ((Int × Option Int) × Nat))
    (k : Int × Option Int) (v : Nat) (h : cs.any (fun p => p.1 == k) = false) :
    (cs ++ [(k, v)]).find? (fun p => p.1 == k) = some (k, v) := by
  induction cs with
  | nil => exact List.find?_cons_of_pos _ (by simp)
  | cons q rest ih =>
    have hq : (q.1 == k) = false := by
      by_contra hc
      simp [List.any_cons, eq_true_of_ne_false hc] at h
    have hr : rest.any (fun r => r.1 == k) = false := by
      simpa [List.any_cons, hq] using h
    rw [List.cons_append]
    simp only [List.find?, hq]
    exact ih hr

theorem counterValue_setCounter (cs : List ((Int × Option Int) × Nat))
    (k : Int × Option Int) (v : Nat) :
    counterValue (setCounter cs k v) k = v := by
  by_cases h : cs.any (fun p => p.1 == k) = true
  · rw [counterValue, setCounter]
    simp only [h, if_true, find?_setCounter_map cs k v h]
  · have h' : cs.any (fun p => p.1 == k) = false := Bool.eq_false_iff.mpr h
    rw [counterValue, setCounter]
    simp only [h', Bool.false_eq_true, if_false, find?_setCounter_append cs k v h']

theorem succ_mod_thresh (T j : Nat) (hT : 1 ≤ T) :
    (j + 1) % T = if T ≤ j % T + 1 then 0 else j % T + 1 := by
  have hlt : j % T < T := Nat.mod_lt _ hT
  rcases eq_or_lt_of_le hT with h1 | h2
  · simp [← h1, Nat.mod_one]
  · have h1T : 1 % T = 1 := Nat.mod_eq_of_lt h2
    by_cases h : T ≤ j % T + 1
    · have he : j % T + 1 = T := by omega
      rw [if_pos h, Nat.add_mod, h1T, he, Nat.mod_self]
    · rw [if_neg h, Nat.add_mod, h1T, Nat.mod_eq_of_lt (by omega)]

theorem succ_div_thresh (T j : Nat) (hT : 1 ≤ T) :
    (j + 1) / T = j / T + if T ≤ j % T + 1 then 1 else 0 := by
  have hlt : j % T < T := Nat.mod_lt _ hT
  rw [Nat.succ_div]
  have hiff : T ∣ j + 1 ↔ T ≤ j % T + 1 := by
    rw [Nat.dvd_iff_mod_eq_zero, succ_mod_thresh T j hT]
    by_cases h : T ≤ j % T + 1
    · simp [h]
    · have hne : j % T + 1 ≠ 0 := by omega
      simp [h, hne]
  by_cases h : T ≤ j % T + 1
  · rw [if_pos h, if_pos (hiff.mpr h)]
  · rw [if_neg h, if_neg (fun hd => h (hiff.mp hd))]

theorem handleMessage_allowedChats (cfg : ListenerConfig) (env : ListenerEnv)
    (s : ListenerState) (m : TelegoMessage) :
    (handleMessage cfg env s m).allowedChats = s.allowedChats := by
  simp only [handleMessage]
  split
  · rfl
  · split
    · rfl
    · split <;> split <;> rfl

theorem ingest_allowedChats (cfg : ListenerConfig) (env : ListenerEnv)
    (s : ListenerState) (msgs : List TelegoMessage) :
    (ingest cfg env s msgs).allowedChats = s.allowedChats := by
  induction msgs generalizing s with
  | nil => rfl
  | cons m rest ih =>
    show (ingest cfg env (handleMessage cfg env s m) rest).allowedChats = _
    rw [ih, handleMessage_allowedChats]

/-- One ingestion step for a valid message of key (chat, thread): the counter
is atomically bumped and, at the threshold, reset to 0 with exactly one
summarize event for that exact key appended. -/
theorem handleMessage_step (cfg : ListenerConfig) (env : ListenerEnv)
    (s : ListenerState) (m : TelegoMessage)
    (htext : getMessageText m ≠ "")
    (hbot : m.fromUser.isBot = false)
    (hallow : s.allowedChats.contains m.chatID = true) :
    counterValue (handleMessage cfg env s m).counters (m.chatID, some m.messageThreadID)
        = (if cfg.maxMsgBuffer ≤ counterValue s.counters (m.chatID, some m.messageThreadID) + 1
           then 0
           else counterValue s.counters (m.chatID, some m.messageThreadID) + 1) ∧
    (handleMessage cfg env s m).summarizeEvents
        = s.summarizeEvents ++
          (if cfg.maxMsgBuffer ≤ counterValue s.counters (m.chatID, some m.messageThreadID) + 1
           then [{ chatID := m.chatID, topicID := some m.messageThreadID }] else []) := by
  have htext' : (getMessageText m == "") = false := by simpa using htext
  have hallow' : isAllowedChat s m.chatID = true := hallow
  simp only [handleMessage, htext', hbot, hallow', Bool.or_self, Bool.false_or,
    Bool.not_true, if_false, Bool.false_eq_true, getTopicID]
  cases hm : isMentionOrReply cfg env m <;>
    simp only [if_true, if_false, Bool.false_eq_true, Bool.true_eq_false] <;>
    simp only [saveMessage, publishMentionEvent, incrementMessageCounter,
      resetMessageCounter, publishSummarizeEvent] <;>
    by_cases hth : cfg.maxMsgBuffer ≤
        counterValue s.counters (m.chatID, some m.messageThreadID) + 1 <;>
    simp [hth, counterValue_setCounter]

/-- Invariant of sequential ingestion of valid messages of one (chat, thread)
key: after j messages the counter row holds j mod T and exactly j / T
summarize events have been published, all scoped to that exact key. -/
theorem ingest_counter_invariant (cfg : ListenerConfig) (env : ListenerEnv)
    (s0 : ListenerState) (msgs : List TelegoMessage) (c t : Int)
    (hT : 1 ≤ cfg.maxMsgBuffer)
    (hmsgs : ∀ m ∈ msgs, getMessageText m ≠ "" ∧ m.fromUser.isBot = false ∧
      m.chatID = c ∧ m.messageThreadID = t)
    (hallow : s0.allowedChats.contains c = true)
    (hc0 : counterValue s0.counters (c, some t) = 0)
    (he0 : s0.summarizeEvents = []) :
    ∀ j, j ≤ msgs.length →
      counterValue (ingest cfg env s0 (msgs.take j)).counters (c, some t)
          = j % cfg.maxMsgBuffer ∧
      (ingest cfg env s0 (msgs.take j)).summarizeEvents.length = j / cfg.maxMsgBuffer ∧
      ∀ e ∈ (ingest cfg env s0 (msgs.take j)).summarizeEvents,
        e = { chatID := c, topicID := some t } := by
  intro j
  induction j with
  | zero =>
    intro _
    refine ⟨?_, ?_, ?_⟩ <;> simp [ingest, hc0, he0]
  | succ j ih =>
    intro hj1
    have hjlt : j < msgs.length := by omega
    obtain ⟨ihc, ihl, ihm⟩ := ih (by omega)
    have hmem : msgs[j] ∈ msgs := List.getElem_mem hjlt
    obtain ⟨hm1, hm2, hm3, hm4⟩ := hmsgs msgs[j] hmem
    have htake : msgs.take (j + 1) = msgs.take j ++ [msgs[j]] := by
      rw [List.take_succ]
      simp [List.getElem?_eq_getElem hjlt]
    have hfold : ingest cfg env s0 (msgs.take (j + 1))
        = handleMessage cfg env (ingest cfg env s0 (msgs.take j)) msgs[j] := by
      unfold ingest
      rw [htake, List.foldl_append]
      rfl
    have hallowj : (ingest cfg env s0 (msgs.take j)).allowedChats.contains msgs[j].chatID
        = true := by
      rw [ingest_allowedChats, hm3]
      exact hallow
    have hstep := handleMessage_step cfg env (ingest cfg env s0 (msgs.take j)) msgs[j]
      hm1 hm2 hallowj
    rw [hm3, hm4, ihc] at hstep
    refine ⟨?_, ?_, ?_⟩
    · rw [hfold, hstep.1, succ_mod_thresh cfg.maxMsgBuffer j hT]
    · rw [hfold, hstep.2, List.length_append, ihl,
        succ_div_thresh cfg.maxMsgBuffer j hT]
      by_cases hcond : cfg.maxMsgBuffer ≤ j % cfg.maxMsgBuffer + 1 <;>
        simp [hcond]
    · intro e he
      rw [hfold, hstep.2] at he
      rcases List.mem_append.mp he with h | h
      · exact ihm e h
      · by_cases hcond : cfg.maxMsgBuffer ≤ j % cfg.maxMsgBuffer + 1
        · rw [if_pos hcond] at h
          simpa using h
        · rw [if_neg hcond] at h
          simp at h

/-- C1 (amended): for every configured threshold T >= 1 and every sequence of
k valid messages ingested sequentially into the same (chat id, topic id) key,
the ingestion path publishes exactly k / T (floor) SummarizeEvents, every one
of them scoped to that exact (chat, topic) pair, the counter for that key ends
at k mod T, and immediately after each published event the counter for that
key is back to 0.  The ingestion key's topic id is always the raw
MessageThreadID wrapped in `some` (0 for the general stream), never `none`:
with chat 42, threshold 3, three plain-text general-stream messages the single
published event is SummarizeEvent{chat=42, topic=0}, not topic=null. -/
theorem C1_counter_monotonicity (cfg : ListenerConfig) (env : ListenerEnv)
    (s0 : ListenerState) (msgs : List TelegoMessage) (c t : Int)
    (hT : 1 ≤ cfg.maxMsgBuffer)
    (hmsgs : ∀ m ∈ msgs, getMessageText m ≠ "" ∧ m.fromUser.isBot = false ∧
      m.chatID = c ∧ m.messageThreadID = t)
    (hallow : s0.allowedChats.contains c = true)
    (hc0 : counterValue s0.counters (c, some t) = 0)
    (he0 : s0.summarizeEvents = []) :
    (ingest cfg env s0 msgs).summarizeEvents.length = msgs.length / cfg.maxMsgBuffer ∧
    (∀ e ∈ (ingest cfg env s0 msgs).summarizeEvents,
      e = { chatID := c, topicID := some t }) ∧
    counterValue (ingest cfg env s0 msgs).counters (c, some t)
        = msgs.length % cfg.maxMsgBuffer ∧
    ∀ j, j < msgs.length →
      (ingest cfg env s0 (msgs.take (j + 1))).summarizeEvents.length
          ≠ (ingest cfg env s0 (msgs.take j)).summarizeEvents.length →
      counterValue (ingest cfg env s0 (msgs.take (j + 1))).counters (c, some t) = 0 := by
  have H := ingest_counter_invariant cfg env s0 msgs c t hT hmsgs hallow hc0 he0
  have hfull := H msgs.length le_rfl
  rw [List.take_length] at hfull
  refine ⟨hfull.2.1, hfull.2.2, hfull.1, ?_⟩
  intro j hj hne
  have h1 := H (j + 1) (by omega)
  have h0 := H j (by omega)
  rw [h1.2.1, h0.2.1, succ_div_thresh cfg.maxMsgBuffer j hT] at hne
  by_cases hcond : cfg.maxMsgBuffer ≤ j % cfg.maxMsgBuffer + 1
  · rw [h1.1, succ_mod_thresh cfg.maxMsgBuffer j hT, if_pos hcond]
  · exact absurd (by rw [if_neg hcond, Nat.add_zero]) hne

/-- Concrete ingestion scenario: threshold 3, chat 42, general stream. -/
def c1Cfg : ListenerConfig := { maxMsgBuffer := 3, mentionUsername := "@william" }

def c1Env : ListenerEnv :=
  { getMe := .ok { id := 99, username := "william_bot", firstName := "William" } }

def c1User : TelegoUser :=
  { id := 7, isBot := false, firstName := "Ann", lastName := "", username := "ann" }

def c1Msg (i : Int) : TelegoMessage :=
  { messageID := i, chatID := 42, messageThreadID := 0, fromUser := c1User,
    text := "hello", caption := "", entities := [], replyToMessage := none }

def c1State : ListenerState :=
  { messages := [], nextMsgID := 1, counters := [], allowedChats := [42],
    summarizeEvents := [], mentionEvents := [] }

def c1Msgs : List TelegoMessage := [c1Msg 1, c1Msg 2, c1Msg 3]

/-- C1 witness: the amended theorem applied to chat 42, threshold 3, three
plain-text general-stream messages: exactly one event, counter back at 0. -/
theorem C1_witness :
    1 ≤ c1Cfg.maxMsgBuffer ∧
    (ingest c1Cfg c1Env c1State c1Msgs).summarizeEvents.length = 1 ∧
    counterValue (ingest c1Cfg c1Env c1State c1Msgs).counters (42, some 0) = 0 := by
  have h := C1_counter_monotonicity c1Cfg c1Env c1State c1Msgs 42 0 (by decide)
    (by decide) (by decide) (by decide) (by decide)
  refine ⟨by decide, ?_, ?_⟩
  · rw [h.1]; decide
  · rw [h.2.2.1]; decide

/-- C1 counterexample to the claim as stated: ingesting three plain-text
messages of chat 42's general stream (threshold 3) publishes exactly one
SummarizeEvent with topic id 0 (the raw MessageThreadID) - not the
SummarizeEvent{chat=42, topic=null} the claim asserts. -/
theorem C1_counterexample :
    (ingest c1Cfg c1Env c1State c1Msgs).summarizeEvents
        = [{ chatID := 42, topicID := some 0 }] ∧
    (ingest c1Cfg c1Env c1State c1Msgs).summarizeEvents
        ≠ [{ chatID := 42, topicID := none }] := by
  constructor <;> decide

/-- C9: for every inbound platform message with no text and no caption, or
whose sender is a bot, or whose chat is not on the allow-list, ingestion
performs no side effect at all: the state (message rows, counters, published
summarize and mention events) is returned unchanged. -/
theorem C9_invalid_message_no_side_effect (cfg : ListenerConfig) (env : ListenerEnv)
    (s : ListenerState) (m : TelegoMessage)
    (h : getMessageText m = "" ∨ m.fromUser.isBot = true ∨
      isAllowedChat s m.chatID = false) :
    handleMessage cfg env s m = s := by
  unfold handleMessage
  rcases h with h | h | h
  · simp [h]
  · simp [h]
  · by_cases hg : (getMessageText m == "" || m.fromUser.isBot) = true
    · simp [hg]
    · simp [hg, h]

/-- Concrete invalid inputs: a bot-authored message, a message with no
text/caption, and a message from a chat that is not allow-listed. -/
def c9BotMsg : TelegoMessage :=
  { messageID := 5, chatID := 42, messageThreadID := 0,
    fromUser := { id := 8, isBot := true, firstName := "B", lastName := "", username := "b" },
    text := "hi", caption := "", entities := [], replyToMessage := none }

def c9EmptyMsg : TelegoMessage :=
  { messageID := 6, chatID := 42, messageThreadID := 0, fromUser := c1User,
    text := "", caption := "", entities := [], replyToMessage := none }

def c9OtherChatMsg : TelegoMessage :=
  { messageID := 7, chatID := 43, messageThreadID := 0, fromUser := c1User,
    text := "hi", caption := "", entities := [], replyToMessage := none }

/-- C9 witness: the theorem applied to the three concrete rejected messages. -/
theorem C9_witness :
    handleMessage c1Cfg c1Env c1State c9BotMsg = c1State ∧
    handleMessage c1Cfg c1Env c1State c9EmptyMsg = c1State ∧
    handleMessage c1Cfg c1Env c1State c9OtherChatMsg = c1State :=
  ⟨C9_invalid_message_no_side_effect c1Cfg c1Env c1State c9BotMsg (by decide),
   C9_invalid_message_no_side_effect c1Cfg c1Env c1State c9EmptyMsg (by decide),
   C9_invalid_message_no_side_effect c1Cfg c1Env c1State c9OtherChatMsg (by decide)⟩

/-! ### Response delivery (`Handlers.sendResponse`, `saveBotMessage`) -/

/-- `telego.SendMessageParams` as used by `sendResponse`: the thread id is
optional (left unset when the chat has no topic support and the topic id is 0,
and on the fallback retry). -/
structure SendMessageParams where
  chatID : Int
  text : String
  messageThreadID : Option Int
  replyToMessageID : Option Int
  deriving DecidableEq, Repr

/-- The `telego.Message` returned by a successful platform send. -/
structure SentMessage where
  messageID : Int
  chatID : Int
  deriving DecidableEq, Repr

/-- Platform and store boundary used by `Handlers.sendResponse`:
`bot.SendMessage`, `repo.IsChatTopicEnabled` and `bot.GetMe` as oracles. -/
structure SendEnv where
  send : SendMessageParams → Except String SentMessage
  isChatTopicEnabled : Int → Except String Bool
  getMe : Except String BotInfo

/-- Character-list version of Go `strings.HasPrefix`. -/
def charsHavePref : List Char → List Char → Bool
  | _, [] => true
  | [], _ :: _ => false
  | c :: cs, p :: ps => c == p && charsHavePref cs ps

/-- Character-list version of Go `strings.Contains`. -/
def charsContain : List Char → List Char → Bool
  | [], pat => charsHavePref [] pat
  | s@(_ :: cs), pat => charsHavePref s pat || charsContain cs pat

/-- Go `strings.Contains(s, pat)`. -/
def strContains (s pat : String) : Bool :=
  charsContain s.toList pat.toList

/-- The error class `sendResponse` checks for before falling back. -/
def threadNotFoundText : String := "message thread not found"

/-- The MessageThreadID `sendResponse` sets on the first attempt: for a
non-nil topic id it is set when the chat supports topics (an
`IsChatTopicEnabled` failure defaults to true) or the topic id is positive. -/
def sendThreadID (env : SendEnv) (chatID : Int) (topicID : Option Int) : Option Int :=
  match topicID with
  | none => none
  | some tid =>
    let hasTopics :=
      match env.isChatTopicEnabled chatID with
      | .ok b => b
      | .error _ => true
    if hasTopics || tid > 0 then some tid else none

/-- The `telego.SendMessageParams` of the first send attempt. -/
def firstSendParams (env : SendEnv) (chatID : Int) (topicID : Option Int)
    (replyToMessageID : Int) (response : String) : SendMessageParams :=
  { chatID := chatID
    text := response
    messageThreadID := sendThreadID env chatID topicID
    replyToMessageID := if replyToMessageID > 0 then some replyToMessageID else none }

/-- The `telego.SendMessageParams` of the fallback retry: no topic. -/
def fallbackSendParams (chatID : Int) (replyToMessageID : Int)
    (response : String) : SendMessageParams :=
  { chatID := chatID
    text := response
    messageThreadID := none
    replyToMessageID := if replyToMessageID > 0 then some replyToMessageID else none }

/-- `Handlers.saveBotMessage`: the bot's own Message row persisted after a
successful send (is-bot true, topic id as passed by `sendResponse`; the
serial row id is assigned by the store). -/
def saveBotMessage (botInfo : BotInfo) (sentMessage : SentMessage)
    (topicID : Option Int) (responseText : String) : Message :=
  { id := 0
    telegramMsgID := sentMessage.messageID
    chatID := sentMessage.chatID
    userID := botInfo.id
    topicID := topicID
    isBot := true
    userFirstName := botInfo.firstName
    userLastName := none
    username := if botInfo.username ≠ "" then some botInfo.username else none
    text := some responseText }

/-- `Handlers.sendResponse` (handlers.go:218-311): first send targets the
original topic thread; a failure whose error contains "message thread not
found" with a non-nil topic id triggers exactly one retry with no topic and
null topic id for storage; any other send error is terminal.  Returns the
trace of platform send attempts in order, and on success the persisted bot
Message row (`none` when `GetMe` failed, in which case the save is skipped
and logged; the send still counts as successful, as in the code). -/
def sendResponse (env : SendEnv) (chatID : Int) (topicID : Option Int)
    (replyToMessageID : Int) (response : String) :
    List SendMessageParams × Except String (Option Message) :=
  match env.send (firstSendParams env chatID topicID replyToMessageID response) with
  | .ok sent =>
    ([firstSendParams env chatID topicID replyToMessageID response],
     .ok (match env.getMe with
      | .ok info => some (saveBotMessage info sent topicID response)
      | .error _ => none))
  | .error e =>
    if topicID.isSome && strContains e threadNotFoundText then
      match env.send (fallbackSendParams chatID replyToMessageID response) with
      | .ok sent =>
        ([firstSendParams env chatID topicID replyToMessageID response,
          fallbackSendParams chatID replyToMessageID response],
         .ok (match env.getMe with
          | .ok info => some (saveBotMessage info sent none response)
          | .error _ => none))
      | .error e2 =>
        ([firstSendParams env chatID topicID replyToMessageID response,
          fallbackSendParams chatID replyToMessageID response],
         .error e2)
    else ([firstSendParams env chatID topicID replyToMessageID response], .error e)

/-- C5: when the first send fails with a "message thread not found" class
error and the topic id is non-null, exactly one retry is made with no topic;
any other send error is terminal with no retry; after a successful send the
bot's own message is persisted with is-bot = true and topic id equal to the
thread that actually succeeded (null when the fallback path was used, the
original topic id otherwise). -/
theorem C5_fallback_delivery (env : SendEnv) (chatID : Int) (topicID : Option Int)
    (replyToMessageID : Int) (response : String) (info : BotInfo)
    (hMe : env.getMe = .ok info) :
    (∀ e, env.send (firstSendParams env chatID topicID replyToMessageID response) = .error e →
      topicID ≠ none →
      strContains e threadNotFoundText = true →
      (sendResponse env chatID topicID replyToMessageID response).1
          = [firstSendParams env chatID topicID replyToMessageID response,
             fallbackSendParams chatID replyToMessageID response] ∧
      (fallbackSendParams chatID replyToMessageID response).messageThreadID = none ∧
      (∀ sent, env.send (fallbackSendParams chatID replyToMessageID response) = .ok sent →
        (sendResponse env chatID topicID replyToMessageID response).2
            = .ok (some (saveBotMessage info sent none response)) ∧
        (saveBotMessage info sent none response).isBot = true ∧
        (saveBotMessage info sent none response).topicID = none) ∧
      (∀ e2, env.send (fallbackSendParams chatID replyToMessageID response) = .error e2 →
        (sendResponse env chatID topicID replyToMessageID response).2 = .error e2)) ∧
    (∀ e, env.send (firstSendParams env chatID topicID replyToMessageID response) = .error e →
      (topicID = none ∨ strContains e threadNotFoundText = false) →
      (sendResponse env chatID topicID replyToMessageID response).1
          = [firstSendParams env chatID topicID replyToMessageID response] ∧
      (sendResponse env chatID topicID replyToMessageID response).2 = .error e) ∧
    (∀ sent, env.send (firstSendParams env chatID topicID replyToMessageID response) = .ok sent →
      (sendResponse env chatID topicID replyToMessageID response).1
          = [firstSendParams env chatID topicID replyToMessageID response] ∧
      (sendResponse env chatID topicID replyToMessageID response).2
          = .ok (some (saveBotMessage info sent topicID response)) ∧
      (saveBotMessage info sent topicID response).isBot = true ∧
      (saveBotMessage info sent topicID response).topicID = topicID) := by
  refine ⟨?_, ?_, ?_⟩
  · intro e he htid hcl
    have hts : topicID.isSome = true := Option.isSome_iff_ne_none.mpr htid
    refine ⟨?_, rfl, ?_, ?_⟩
    · cases h2 : env.send (fallbackSendParams chatID replyToMessageID response) <;>
        simp [sendResponse, he, hts, hcl, h2]
    · intro sent hs
      exact ⟨by simp [sendResponse, he, hts, hcl, hs, hMe], rfl, rfl⟩
    · intro e2 h2e
      simp [sendResponse, he, hts, hcl, h2e]
  · intro e he hor
    have hg : (topicID.isSome && strContains e threadNotFoundText) = false := by
      rcases hor with h | h <;> simp [h]
    exact ⟨by simp [sendResponse, he, hg], by simp [sendResponse, he, hg]⟩
  · intro sent hs
    exact ⟨by simp [sendResponse, hs], by simp [sendResponse, hs, hMe], rfl, rfl⟩

/-- Concrete delivery scenario: topic thread 77 is gone, so the platform
rejects the first send with a "message thread not found" error and accepts
the topicless retry. -/
def c5Info : BotInfo := { id := 99, username := "william_bot", firstName := "William" }

def c5Env : SendEnv :=
  { send := fun p =>
      if p.messageThreadID = some 77 then
        .error "telegram: message thread not found"
      else
        .ok { messageID := 500, chatID := p.chatID }
    isChatTopicEnabled := fun _ => .ok true
    getMe := .ok c5Info }

/-- C5 witness: the theorem applied to the concrete scenario: exactly two
send attempts (the second with no topic), and the persisted bot row has
is-bot = true and null topic id. -/
theorem C5_witness :
    (sendResponse c5Env 10 (some 77) 5 "hi").1
        = [firstSendParams c5Env 10 (some 77) 5 "hi", fallbackSendParams 10 5 "hi"] ∧
    (sendResponse c5Env 10 (some 77) 5 "hi").2
        = .ok (some (saveBotMessage c5Info { messageID := 500, chatID := 10 } none "hi")) ∧
    (saveBotMessage c5Info { messageID := 500, chatID := 10 } none "hi").isBot = true ∧
    (saveBotMessage c5Info { messageID := 500, chatID := 10 } none "hi").topicID = none := by
  have h := (C5_fallback_delivery c5Env 10 (some 77) 5 "hi" c5Info rfl).1
      "telegram: message thread not found" rfl (by decide) rfl
  have h2 := h.2.2.1 { messageID := 500, chatID := 10 } rfl
  exact ⟨h.1, h2.1, h2.2.1, h2.2.2⟩

theorem mem_ite_or {α : Type} {c : Prop} [Decidable c] {x : α} {a b : List α}
    (h : x ∈ if c then a else b) : x ∈ a ∨ x ∈ b := by
  split at h
  · exact Or.inl h
  · exact Or.inr h

/-- C10: every Message row persisted by the ingestion listener and every
SummarizeEvent and MentionEvent it publishes carries topic id
`some MessageThreadID` (0 for the general stream), never `none`; and in
response delivery with a non-null topic id, the persisted bot row has
is-bot = true and can have a null topic id only when the first send failed
with a "message thread not found" error and the topicless fallback was used. -/
theorem C10_topic_id_never_null :
    (∀ cfg env s m, ∀ r ∈ (handleMessage cfg env s m).messages,
        r ∈ s.messages ∨ r.topicID = some m.messageThreadID) ∧
    (∀ cfg env s m, ∀ e ∈ (handleMessage cfg env s m).summarizeEvents,
        e ∈ s.summarizeEvents ∨ e.topicID = some m.messageThreadID) ∧
    (∀ cfg env s m, ∀ e ∈ (handleMessage cfg env s m).mentionEvents,
        e ∈ s.mentionEvents ∨ e.topicID = some m.messageThreadID) ∧
    (∀ env chatID topicID replyToMessageID response row,
        topicID ≠ none →
        (sendResponse env chatID topicID replyToMessageID response).2
            = .ok (some row) →
        row.isBot = true ∧
        (row.topicID = none →
          (sendResponse env chatID topicID replyToMessageID response).1.length = 2 ∧
          ∃ e, env.send (firstSendParams env chatID topicID replyToMessageID response)
                  = .error e ∧
               strContains e threadNotFoundText = true)) := by
  refine ⟨?_, ?_, ?_, ?_⟩
  · intro cfg env s m r hr
    unfold handleMessage at hr
    by_cases h1 : (getMessageText m == "" || m.fromUser.isBot) = true
    · rw [if_pos h1] at hr
      exact Or.inl hr
    · rw [if_neg h1] at hr
      by_cases h2 : (!isAllowedChat s m.chatID) = true
      · rw [if_pos h2] at hr
        exact Or.inl hr
      · rw [if_neg h2] at hr
        simp only [saveMessage, publishMentionEvent, publishSummarizeEvent,
          apply_ite ListenerState.messages, ite_self] at hr
        rcases List.mem_append.mp hr with h | h
        · exact Or.inl h
        · right
          rcases List.mem_singleton.mp h with rfl
          simp [ingestedRow, getTopicID]
  · intro cfg env s m e he
    unfold handleMessage at he
    by_cases h1 : (getMessageText m == "" || m.fromUser.isBot) = true
    · rw [if_pos h1] at he
      exact Or.inl he
    · rw [if_neg h1] at he
      by_cases h2 : (!isAllowedChat s m.chatID) = true
      · rw [if_pos h2] at he
        exact Or.inl he
      · rw [if_neg h2] at he
        simp only [saveMessage, publishMentionEvent, publishSummarizeEvent,
          apply_ite ListenerState.summarizeEvents, ite_self] at he
        rcases mem_ite_or he with h | h
        · rcases List.mem_append.mp h with h | h
          · exact Or.inl h
          · right
            rcases List.mem_singleton.mp h with rfl
            rfl
        · exact Or.inl h
  · intro cfg env s m e he
    unfold handleMessage at he
    by_cases h1 : (getMessageText m == "" || m.fromUser.isBot) = true
    · rw [if_pos h1] at he
      exact Or.inl he
    · rw [if_neg h1] at he
      by_cases h2 : (!isAllowedChat s m.chatID) = true
      · rw [if_pos h2] at he
        exact Or.inl he
      · rw [if_neg h2] at he
        simp only [saveMessage, publishMentionEvent, publishSummarizeEvent,
          apply_ite ListenerState.mentionEvents, ite_self] at he
        rcases mem_ite_or he with h | h
        · rcases List.mem_append.mp h with h | h
          · exact Or.inl h
          · right
            rcases List.mem_singleton.mp h with rfl
            simp [getTopicID]
        · exact Or.inl h
  · intro env chatID topicID replyToMessageID response row htid hres
    unfold sendResponse at hres
    cases h1 : env.send (firstSendParams env chatID topicID replyToMessageID response) with
    | ok sent =>
      rw [h1] at hres
      dsimp only at hres
      cases hMe : env.getMe with
      | ok info =>
        rw [hMe] at hres
        simp only [Except.ok.injEq, Option.some.injEq] at hres
        subst hres
        exact ⟨rfl, fun hnone => absurd hnone htid⟩
      | error msg =>
        rw [hMe] at hres
        simp at hres
    | error e =>
      rw [h1] at hres
      dsimp only at hres
      by_cases hg : (topicID.isSome && strContains e threadNotFoundText) = true
      · rw [if_pos hg] at hres
        cases h2 : env.send (fallbackSendParams chatID replyToMessageID response) with
        | ok sent2 =>
          rw [h2] at hres
          dsimp only at hres
          cases hMe : env.getMe with
          | ok info =>
            rw [hMe] at hres
            simp only [Except.ok.injEq, Option.some.injEq] at hres
            subst hres
            refine ⟨rfl, fun _ => ⟨?_, e, rfl, ?_⟩⟩
            · unfold sendResponse
              rw [h1]
              dsimp only
              rw [if_pos hg, h2]
              rfl
            · exact ((Bool.and_eq_true _ _).mp hg).2
          | error msg =>
            rw [hMe] at hres
            simp at hres
        | error e2 =>
          rw [h2] at hres
          simp at hres
      · rw [if_neg hg] at hres
        simp at hres

/-- The row the listener persists for the first concrete ingested message. -/
def c10Row : Message :=
  { id := 1, telegramMsgID := 1, chatID := 42, userID := 7, topicID := some 0,
    isBot := false, userFirstName := "Ann", userLastName := none,
    username := some "ann", text := some "hello" }

/-- C10 witness: the theorem applied to a concrete ingested general-stream
message (its persisted row carries topic id 0, not null) and to the concrete
fallback delivery (the persisted bot row has is-bot = true). -/
theorem C10_witness :
    (c10Row ∈ c1State.messages ∨ c10Row.topicID = some 0) ∧
    (saveBotMessage c5Info { messageID := 500, chatID := 10 } none "hi").isBot = true := by
  refine ⟨?_, ?_⟩
  · exact C10_topic_id_never_null.1 c1Cfg c1Env c1State (c1Msg 1) c10Row (by decide)
  · exact (C10_topic_id_never_null.2.2.2 c5Env 10 (some 77) 5 "hi"
      (saveBotMessage c5Info { messageID := 500, chatID := 10 } none "hi")
      (by decide) rfl).1

/-! ### Cumulative Summarization Engine (`internal/context`, part_016) -/

/-- `repo.GetLatestMessagesByChatID` (repository.go:57-82): the `limit` most
recent messages of a chat, most recent first (`ORDER BY id DESC LIMIT`).
The messages table is append-only with ascending serial ids, so the
id-descending query result is the reverse of table order. -/
def getLatestMessagesByChatID (db : List Message) (chatID : Int) (limit : Nat) :
    List Message :=
  ((db.filter (fun m => m.chatID == chatID)).reverse).take limit

/-- `context.TopicKey` (part_016:34-46): safe map key for grouping by topic.
The Go zero value leaves `value = 0` when `hasValue` is false. -/
structure TopicKey where
  hasValue : Bool
  value : Int
  deriving DecidableEq, Repr

/-- `context.NewTopicKey` (part_016:41-46). -/
def NewTopicKey (topicID : Option Int) : TopicKey :=
  match topicID with
  | none => { hasValue := false, value := 0 }
  | some v => { hasValue := true, value := v }

/-- The message batch `Summarizer.SummarizeChatTopic` (part_016:216-255)
selects: the chat's `maxMessages` most recent messages filtered to the
requested topic (`none` selects rows whose topic id is NULL). -/
def summarizeChatTopicBatch (db : List Message) (chatID : Int)
    (topicID : Option Int) (maxMessages : Nat) : List Message :=
  match topicID with
  | some tid =>
    (getLatestMessagesByChatID db chatID maxMessages).filter
      (fun m => match m.topicID with
        | some mt => mt == tid
        | none => false)
  | none =>
    (getLatestMessagesByChatID db chatID maxMessages).filter
      (fun m => m.topicID == none)

/-- The distinct topic keys of a batch, in first-appearance order (Go map
iteration order is unspecified; order is irrelevant to the properties
proved). -/
def topicGroupKeys (msgs : List Message) : List TopicKey :=
  (msgs.map (fun m => NewTopicKey m.topicID)).eraseDups

/-- The topic grouping `Summarizer.SummarizeChat` (part_016:60-65) builds:
for each key, the batch messages carrying that key, in batch order
(successive `append` to the map entry preserves order). -/
def topicGroups (msgs : List Message) : List (TopicKey × List Message) :=
  (topicGroupKeys msgs).map
    (fun k => (k, msgs.filter (fun m => NewTopicKey m.topicID == k)))

/-- Durable state read and written by the Summarizer. -/
structure SummarizerStore where
  messages : List Message
  chatSummaries : List ChatSummary
  userSummaries : List UserSummary
  deriving DecidableEq, Repr

/-- Modelled from the spec: the topic-aware `repo.GetLatestChatSummaryByTopic`
body is absent from the snapshot (only its callers in part_016/part_018 are
present).  Per spec section 3 the Chat Summary row is unique per
(chat id, topic id), so the lookup returns the row with that exact key. -/
def getLatestChatSummaryByTopic (rows : List ChatSummary) (chatID : Int)
    (topicID : Option Int) : Option ChatSummary :=
  rows.find? (fun cs => cs.chatID == chatID && cs.topicID == topicID)

/-- `repo.GetLatestUserSummary`: the row for (chat id, user id) (unique per
spec section 3). -/
def getLatestUserSummary (rows : List UserSummary) (chatID userID : Int) :
    Option UserSummary :=
  rows.find? (fun us => us.chatID == chatID && us.userID == userID)

/-- Modelled from the spec: the topic-aware `repo.SaveChatSummary` body is
absent from the snapshot; per spec sections 3/6 it upserts by the natural key
(chat id, topic id). -/
def saveChatSummary (rows : List ChatSummary) (cs : ChatSummary) :
    List ChatSummary :=
  if rows.any (fun c => c.chatID == cs.chatID && c.topicID == cs.topicID) then
    rows.map (fun c => if c.chatID == cs.chatID && c.topicID == cs.topicID then cs else c)
  else rows ++ [cs]

/-- Modelled from the spec: `repo.SaveUserSummary` upserts by the natural key
(chat id, user id) (spec sections 3/6). -/
def saveUserSummary (rows : List UserSummary) (us : UserSummary) :
    List UserSummary :=
  if rows.any (fun u => u.chatID == us.chatID && u.userID == us.userID) then
    rows.map (fun u => if u.chatID == us.chatID && u.userID == us.userID then us else u)
  else rows ++ [us]

/-- `gpt.ChatSummaryData` (newest version, per part_016 and spec section 6):
summary text, topic-frequency map, list of upcoming events. -/
structure ChatSummaryData where
  summary : String
  topics : List (String × Int)
  nextEvents : List EventItem
  deriving DecidableEq, Repr

/-- `gpt.UserProfileData` (newest version, per part_016 and spec section 6). -/
structure UserProfileData where
  likes : List (String × Int)
  dislikes : List (String × Int)
  competencies : List (String × Int)
  traits : List (String × String)
  deriving DecidableEq, Repr

/-- `gpt.SummarizeResponse`: the structured LLM response.  The JSON string
keys of `user_profiles` are modelled already parsed to int64 (part_016:165-169
skips keys that do not parse). -/
structure SummarizeResponse where
  chatSummary : ChatSummaryData
  userProfiles : List (Int × UserProfileData)
  deriving DecidableEq, Repr

/-- `gpt.SummarizeRequest` (newest version, as built by part_016:119-126). -/
structure SummarizeRequest where
  chatID : Int
  messages : List Message
  existingChatSummary : Option ChatSummary
  existingUserSummaries : List (Int × UserSummary)
  botName : String
  deriving Repr

/-- The distinct sender ids of a batch (part_016:99-103), in
first-appearance order. -/
def batchUserIDs (msgs : List Message) : List Int :=
  (msgs.map (fun m => m.userID)).eraseDups

/-- The stored user summaries for the batch's senders (part_016:105-117):
senders without a stored row are skipped. -/
def existingUserSummariesFor (rows : List UserSummary) (chatID : Int)
    (msgs : List Message) : List (Int × UserSummary) :=
  (batchUserIDs msgs).filterMap (fun uid =>
    match getLatestUserSummary rows chatID uid with
    | some us => some (uid, us)
    | none => none)

/-- The LLM request `Summarizer.summarizeTopicMessages` builds
(part_016:82-126): the batch reversed into chronological order, the stored
chat summary for the exact (chat, topic) scope, the stored user summaries of
the batch's senders, and the configured bot name. -/
def summarizeLLMRequest (botName : String) (st : SummarizerStore) (chatID : Int)
    (topicKey : TopicKey) (messages : List Message) : SummarizeRequest :=
  let chrono := messages.reverse
  let topicID := if topicKey.hasValue then some topicKey.value else none
  { chatID := chatID
    messages := chrono
    existingChatSummary := getLatestChatSummaryByTopic st.chatSummaries chatID topicID
    existingUserSummaries := existingUserSummariesFor st.userSummaries chatID chrono
    botName := botName }

/-- The user-summary row part_016:171-209 builds from a returned profile,
refreshing cached identity fields from the batch (the serial row id is
assigned by the store). -/
def userSummaryRow (chatID : Int) (msgs : List Message)
    (p : Int × UserProfileData) : UserSummary :=
  { id := 0
    chatID := chatID
    userID := p.1
    username := match msgs.find? (fun m => m.userID == p.1) with
      | some mi => mi.username
      | none => none
    firstName := match msgs.find? (fun m => m.userID == p.1) with
      | some mi => some mi.userFirstName
      | none => none
    lastName := match msgs.find? (fun m => m.userID == p.1) with
      | some mi => mi.userLastName
      | none => none
    likesJSON := p.2.likes
    dislikesJSON := p.2.dislikes
    competenciesJSON := p.2.competencies
    traitsJSON := p.2.traits }

/-- `Summarizer.summarizeTopicMessages` (part_016:82-213): reverse the batch
into chronological order, load the stored state, call the LLM boundary once,
and on success upsert the Chat Summary row for the scope and a User Summary
row per returned profile.  An LLM error (including a response-parse failure)
aborts the attempt with no store write. -/
def summarizeTopicMessages (llm : SummarizeRequest → Except String SummarizeResponse)
    (botName : String) (st : SummarizerStore) (chatID : Int) (topicKey : TopicKey)
    (messages : List Message) : SummarizerStore × Except String Unit :=
  match llm (summarizeLLMRequest botName st chatID topicKey messages) with
  | .error e => (st, .error ("failed to summarize with GPT: " ++ e))
  | .ok response =>
    let topicID := if topicKey.hasValue then some topicKey.value else none
    let chatSummary : ChatSummary :=
      { id := 0
        chatID := chatID
        topicID := topicID
        summary := response.chatSummary.summary
        topicsJSON := response.chatSummary.topics
        nextEvents := none
        nextEventsJSON := response.chatSummary.nextEvents }
    let st1 := { st with chatSummaries := saveChatSummary st.chatSummaries chatSummary }
    let st2 := response.userProfiles.foldl
      (fun acc p =>
        { acc with userSummaries :=
            saveUserSummary acc.userSummaries (userSummaryRow chatID messages.reverse p) })
      st1
    (st2, .ok ())

/-- `Summarizer.SummarizeChatTopic` (part_016:216-255): fetch and filter the
batch for the exact scope; an empty batch is a no-op. -/
def SummarizeChatTopic (llm : SummarizeRequest → Except String SummarizeResponse)
    (botName : String) (st : SummarizerStore) (chatID : Int) (topicID : Option Int)
    (maxMessages : Nat) : SummarizerStore × Except String Unit :=
  let messages := summarizeChatTopicBatch st.messages chatID topicID maxMessages
  if messages.isEmpty then (st, .ok ())
  else summarizeTopicMessages llm botName st chatID (NewTopicKey topicID) messages

/-- `Summarizer.SummarizeChat` (part_016:48-79): fetch the chat's recent
messages, group by topic key and summarize each group; a group's failure is
logged and the loop continues with the other groups; the function itself
returns success. -/
def SummarizeChat (llm : SummarizeRequest → Except String SummarizeResponse)
    (botName : String) (st : SummarizerStore) (chatID : Int) (maxMessages : Nat) :
    SummarizerStore × Except String Unit :=
  let messages := getLatestMessagesByChatID st.messages chatID maxMessages
  if messages.isEmpty then (st, .ok ())
  else
    ((topicGroups messages).foldl
      (fun acc g => (summarizeTopicMessages llm botName acc chatID g.1 g.2).1) st,
     .ok ())

/-- `Summarizer.SummarizeAllActiveChats` (part_016:257-272): loop over the
active chats (the list returned by `repo.GetActiveChatIDs` is a parameter);
a chat's failure is logged and the loop continues; always returns success. -/
def SummarizeAllActiveChats (llm : SummarizeRequest → Except String SummarizeResponse)
    (botName : String) (st : SummarizerStore) (chatIDs : List Int) (maxMessages : Nat) :
    SummarizerStore × Except String Unit :=
  (chatIDs.foldl (fun acc c => (SummarizeChat llm botName acc c maxMessages).1) st,
   .ok ())

theorem NewTopicKey_inj (a b : Option Int) (h : NewTopicKey a = NewTopicKey b) :
    a = b := by
  cases a <;> cases b <;> simp_all [NewTopicKey]

theorem mem_getLatestMessagesByChatID (db : List Message) (c : Int) (n : Nat)
    (m : Message) (h : m ∈ getLatestMessagesByChatID db c n) :
    m ∈ db ∧ m.chatID = c := by
  unfold getLatestMessagesByChatID at h
  have h1 := List.mem_of_mem_take h
  rw [List.mem_reverse] at h1
  have h2 := List.mem_filter.mp h1
  exact ⟨h2.1, by simpa using h2.2⟩

/-- C3: in a threshold-triggered SummarizeChatTopic run the transcript handed
to the LLM boundary contains only messages of the exact (chat id, topic id)
key requested; in a bulk SummarizeChat pass every per-topic batch is
key-homogeneous (any two batch members share the topic id); and the null
topic id is a grouping key distinct from every concrete id. -/
theorem C3_topic_isolation :
    (∀ botName st chatID topicID maxMessages,
      ∀ m ∈ (summarizeLLMRequest botName st chatID (NewTopicKey topicID)
          (summarizeChatTopicBatch st.messages chatID topicID maxMessages)).messages,
        m.chatID = chatID ∧ m.topicID = topicID) ∧
    (∀ botName st chatID msgs, ∀ g ∈ topicGroups msgs,
      ∀ m1 ∈ (summarizeLLMRequest botName st chatID g.1 g.2).messages,
      ∀ m2 ∈ (summarizeLLMRequest botName st chatID g.1 g.2).messages,
        NewTopicKey m1.topicID = g.1 ∧ m1.topicID = m2.topicID) ∧
    (∀ v : Int, NewTopicKey none ≠ NewTopicKey (some v)) := by
  refine ⟨?_, ?_, ?_⟩
  · intro botName st chatID topicID maxMessages m hm
    simp only [summarizeLLMRequest, List.mem_reverse] at hm
    cases topicID with
    | some tid =>
      unfold summarizeChatTopicBatch at hm
      have h2 := List.mem_filter.mp hm
      have hc := (mem_getLatestMessagesByChatID _ _ _ _ h2.1).2
      refine ⟨hc, ?_⟩
      have hp := h2.2
      cases hmt : m.topicID with
      | none => rw [hmt] at hp; simp at hp
      | some mt =>
        rw [hmt] at hp
        simp only [beq_iff_eq] at hp
        rw [hp]
    | none =>
      unfold summarizeChatTopicBatch at hm
      have h2 := List.mem_filter.mp hm
      have hc := (mem_getLatestMessagesByChatID _ _ _ _ h2.1).2
      exact ⟨hc, by simpa using h2.2⟩
  · intro botName st chatID msgs g hg m1 hm1 m2 hm2
    simp only [summarizeLLMRequest, List.mem_reverse] at hm1 hm2
    obtain ⟨k, hk, rfl⟩ := List.mem_map.mp hg
    have h1 := List.mem_filter.mp hm1
    have h2 := List.mem_filter.mp hm2
    have e1 : NewTopicKey m1.topicID = k := by simpa using h1.2
    have e2 : NewTopicKey m2.topicID = k := by simpa using h2.2
    exact ⟨e1, NewTopicKey_inj _ _ (e1.trans e2.symm)⟩
  · intro v h
    simp [NewTopicKey] at h

theorem summarizeChatTopicBatch_mem (db : List Message) (c : Int) (t : Option Int)
    (n : Nat) (m : Message) :
    m ∈ summarizeChatTopicBatch db c t n ↔
      m ∈ getLatestMessagesByChatID db c n ∧ m.topicID = t := by
  cases t with
  | some tid =>
    simp only [summarizeChatTopicBatch, List.mem_filter]
    constructor
    · intro ⟨h1, h2⟩
      refine ⟨h1, ?_⟩
      cases hmt : m.topicID with
      | none => rw [hmt] at h2; simp at h2
      | some mt => rw [hmt] at h2; simp only [beq_iff_eq] at h2; rw [h2]
    · intro ⟨h1, h2⟩
      refine ⟨h1, ?_⟩
      rw [h2]
      simp
  | none =>
    simp only [summarizeChatTopicBatch, List.mem_filter]
    constructor
    · intro ⟨h1, h2⟩
      exact ⟨h1, by simpa using h2⟩
    · intro ⟨h1, h2⟩
      exact ⟨h1, by simpa using h2⟩

/-- The batch the C7 claim describes, written from the spec's words
(refinement-comparison definition): up to `maxMessages` of the most recent
messages of the exact (chat id, topic id) scope, oldest first. -/
def specMostRecentScopeBatch (db : List Message) (chatID : Int)
    (topicID : Option Int) (maxMessages : Nat) : List Message :=
  ((((db.filter (fun m => m.chatID == chatID && m.topicID == topicID)).reverse).take
    maxMessages).reverse)

/-- Concrete two-topic chat: the scope (chat 1, topic 1) has one (old)
message, but the single most recent chat message is in topic 2. -/
def c7m1 : Message :=
  { id := 1, telegramMsgID := 1, chatID := 1, userID := 7, topicID := some 1,
    isBot := false, userFirstName := "A", userLastName := none, username := none,
    text := some "x" }

def c7m2 : Message :=
  { id := 2, telegramMsgID := 2, chatID := 1, userID := 8, topicID := some 2,
    isBot := false, userFirstName := "B", userLastName := none, username := none,
    text := some "y" }

def c7db : List Message := [c7m1, c7m2]

def c7st : SummarizerStore :=
  { messages := c7db, chatSummaries := [], userSummaries := [] }

/-- C7 counterexample to the claim as stated: with maxMessages = 1 the code's
batch for scope (chat 1, topic 1) is empty - the fetch takes the chat's most
recent message (topic 2) and filters it away - while the most recent message
of the scope itself is c7m1. -/
theorem C7_counterexample :
    summarizeChatTopicBatch c7db 1 (some 1) 1 = [] ∧
    specMostRecentScopeBatch c7db 1 (some 1) 1 = [c7m1] ∧
    ([] : List Message) ≠ [c7m1] := by
  refine ⟨by decide, by decide, by decide⟩

/-- C7 (amended): the batch summarized by SummarizeChatTopic(chat, topic,
maxMessages) consists of exactly those messages of the exact (chat id,
topic id) scope that lie among the maxMessages most recent messages of the
whole chat (not the scope's own maxMessages most recent), and it is handed
to the LLM boundary in chronological (ascending-id, oldest-first) order. -/
theorem C7_recent_batch (botName : String) (st : SummarizerStore) (chatID : Int)
    (topicID : Option Int) (maxMessages : Nat)
    (hsorted : st.messages.Pairwise (fun a b => a.id < b.id)) :
    (∀ m ∈ (summarizeLLMRequest botName st chatID (NewTopicKey topicID)
        (summarizeChatTopicBatch st.messages chatID topicID maxMessages)).messages,
      m ∈ getLatestMessagesByChatID st.messages chatID maxMessages ∧
        m.chatID = chatID ∧ m.topicID = topicID) ∧
    (∀ m ∈ getLatestMessagesByChatID st.messages chatID maxMessages,
      m.topicID = topicID →
      m ∈ (summarizeLLMRequest botName st chatID (NewTopicKey topicID)
        (summarizeChatTopicBatch st.messages chatID topicID maxMessages)).messages) ∧
    ((summarizeLLMRequest botName st chatID (NewTopicKey topicID)
        (summarizeChatTopicBatch st.messages chatID topicID maxMessages)).messages).Pairwise
      (fun a b => a.id < b.id) := by
  refine ⟨?_, ?_, ?_⟩
  · intro m hm
    simp only [summarizeLLMRequest, List.mem_reverse] at hm
    have h := (summarizeChatTopicBatch_mem _ _ _ _ _).mp hm
    exact ⟨h.1, (mem_getLatestMessagesByChatID _ _ _ _ h.1).2, h.2⟩
  · intro m hm ht
    simp only [summarizeLLMRequest, List.mem_reverse]
    exact (summarizeChatTopicBatch_mem _ _ _ _ _).mpr ⟨hm, ht⟩
  · simp only [summarizeLLMRequest]
    rw [List.pairwise_reverse]
    have h1 : (st.messages.filter (fun m => m.chatID == chatID)).Pairwise
        (fun a b => a.id < b.id) :=
      List.Pairwise.sublist (List.filter_sublist _) hsorted
    have h2 : ((st.messages.filter (fun m => m.chatID == chatID)).reverse).Pairwise
        (fun a b => b.id < a.id) := by
      rw [List.pairwise_reverse]
      exact h1
    have h3 := List.Pairwise.sublist (List.take_sublist maxMessages _) h2
    cases topicID with
    | some tid =>
      exact List.Pairwise.sublist (List.filter_sublist _) h3
    | none =>
      exact List.Pairwise.sublist (List.filter_sublist _) h3

/-- C7 witness: the amended theorem applied to the concrete two-topic chat
with maxMessages = 2 and scope (chat 1, topic 2): the chronological batch is
sorted oldest-first and its member c7m2 is among the chat's two most recent
messages with the exact scope. -/
theorem C7_witness :
    ((summarizeLLMRequest "William" c7st 1 (NewTopicKey (some 2))
        (summarizeChatTopicBatch c7st.messages 1 (some 2) 2)).messages).Pairwise
      (fun a b => a.id < b.id) ∧
    (c7m2 ∈ getLatestMessagesByChatID c7st.messages 1 2 ∧
      c7m2.chatID = 1 ∧ c7m2.topicID = some 2) := by
  have h := C7_recent_batch "William" c7st 1 (some 2) 2 (by decide)
  exact ⟨h.2.2, h.1 c7m2 (by decide)⟩

/-- C3 witness: the theorem applied to the concrete two-topic chat: the
member of the scope (chat 1, topic 1) batch carries exactly that key, and
the null key differs from the concrete key 0. -/
theorem C3_witness :
    (c7m1.chatID = 1 ∧ c7m1.topicID = some 1) ∧
    NewTopicKey none ≠ NewTopicKey (some 0) :=
  ⟨C3_topic_isolation.1 "William" c7st 1 (some 1) 10 c7m1 (by decide),
   C3_topic_isolation.2.2 0⟩

/-- `gpt.Client.Summarize` response handling (client.go:98-113): a transport
error or a response body that does not parse as the structured
`SummarizeResponse` JSON yields an error and no result.  The HTTP completion
and the JSON grammar are oracles (`complete`, `parse`). -/
def clientSummarize (complete : SummarizeRequest → Except String String)
    (parse : String → Option SummarizeResponse)
    (req : SummarizeRequest) : Except String SummarizeResponse :=
  match complete req with
  | .error e => .error ("failed to call OpenAI: " ++ e)
  | .ok content =>
    match parse content with
    | none => .error "failed to parse response JSON"
    | some result => .ok result

/-- C6: if the LLM response body does not parse as the expected structured
JSON, the summarization attempt returns an error and performs no store
write: the stored Chat Summary and User Summary rows are exactly as before
(no partial persistence). -/
theorem C6_parse_failure_no_partial_persistence
    (complete : SummarizeRequest → Except String String)
    (parse : String → Option SummarizeResponse)
    (botName : String) (st : SummarizerStore) (chatID : Int) (topicKey : TopicKey)
    (msgs : List Message) (content : String)
    (hcontent : complete (summarizeLLMRequest botName st chatID topicKey msgs)
        = .ok content)
    (hparse : parse content = none) :
    (summarizeTopicMessages (clientSummarize complete parse) botName st chatID
        topicKey msgs).1 = st ∧
    (summarizeTopicMessages (clientSummarize complete parse) botName st chatID
        topicKey msgs).1.chatSummaries = st.chatSummaries ∧
    (summarizeTopicMessages (clientSummarize complete parse) botName st chatID
        topicKey msgs).1.userSummaries = st.userSummaries ∧
    (summarizeTopicMessages (clientSummarize complete parse) botName st chatID
        topicKey msgs).2
      = .error ("failed to summarize with GPT: " ++ "failed to parse response JSON") := by
  simp [summarizeTopicMessages, clientSummarize, hcontent, hparse]

/-- Concrete parse-failure scenario: the model answers with malformed JSON
while the store holds a prior chat summary and user summary. -/
def c6Row : ChatSummary :=
  { id := 5, chatID := 1, topicID := some 1, summary := "old",
    topicsJSON := [("t", 2)], nextEvents := none, nextEventsJSON := [] }

def c6URow : UserSummary :=
  { id := 3, chatID := 1, userID := 7, username := none, firstName := none,
    lastName := none, likesJSON := [("x", 1)], dislikesJSON := [],
    competenciesJSON := [], traitsJSON := [] }

def c6St : SummarizerStore :=
  { messages := [c7m1], chatSummaries := [c6Row], userSummaries := [c6URow] }

def c6Complete : SummarizeRequest → Except String String := fun _ => .ok "not json"

def c6Parse : String → Option SummarizeResponse := fun _ => none

/-- C6 witness: the theorem applied to the concrete parse failure: the prior
rows survive untouched and the attempt errors. -/
theorem C6_witness :
    (summarizeTopicMessages (clientSummarize c6Complete c6Parse) "William" c6St 1
        (NewTopicKey (some 1)) [c7m1]).1 = c6St ∧
    (summarizeTopicMessages (clientSummarize c6Complete c6Parse) "William" c6St 1
        (NewTopicKey (some 1)) [c7m1]).1.chatSummaries = [c6Row] := by
  have h := C6_parse_failure_no_partial_persistence c6Complete c6Parse "William"
    c6St 1 (NewTopicKey (some 1)) [c7m1] "not json" rfl rfl
  exact ⟨h.1, h.2.1⟩

theorem summarizeTopicMessages_error_fst
    (llm : SummarizeRequest → Except String SummarizeResponse)
    (botName : String) (st : SummarizerStore) (chatID : Int) (topicKey : TopicKey)
    (msgs : List Message) (e : String)
    (h : llm (summarizeLLMRequest botName st chatID topicKey msgs) = .error e) :
    (summarizeTopicMessages llm botName st chatID topicKey msgs).1 = st := by
  unfold summarizeTopicMessages
  rw [h]

/-- C8: in a bulk pass, a chat whose every summarization call fails (for
example with a malformed-JSON parse error) leaves the store untouched and
does not prevent the remaining chats from being processed: dropping the
failing chat from the active list yields the identical result, and
SummarizeAllActiveChats never aborts the loop. -/
theorem C8_bulk_partial_failure_isolation
    (llm : SummarizeRequest → Except String SummarizeResponse)
    (botName : String) (maxMessages : Nat) (badChat : Int) (emsg : String)
    (hbad : ∀ req, req.chatID = badChat → llm req = .error emsg) :
    (∀ st, (SummarizeChat llm botName st badChat maxMessages).1 = st) ∧
    (∀ st pre post,
      SummarizeAllActiveChats llm botName st (pre ++ badChat :: post) maxMessages
        = SummarizeAllActiveChats llm botName st (pre ++ post) maxMessages) ∧
    (∀ st chats,
      (SummarizeAllActiveChats llm botName st chats maxMessages).2 = .ok ()) := by
  have hfold : ∀ (l : List (TopicKey × List Message)) (s : SummarizerStore),
      l.foldl (fun acc g =>
        (summarizeTopicMessages llm botName acc badChat g.1 g.2).1) s = s := by
    intro l
    induction l with
    | nil => intro s; rfl
    | cons g rest ih =>
      intro s
      rw [List.foldl_cons,
        summarizeTopicMessages_error_fst llm botName s badChat g.1 g.2 emsg
          (hbad _ rfl), ih s]
  have hchat : ∀ st, (SummarizeChat llm botName st badChat maxMessages).1 = st := by
    intro st
    unfold SummarizeChat
    dsimp only
    split
    · rfl
    · exact hfold _ st
  refine ⟨hchat, ?_, ?_⟩
  · intro st pre post
    simp only [SummarizeAllActiveChats, List.foldl_append, List.foldl_cons]
    rw [hchat]
  · intro st chats
    rfl

/-- Concrete two-chat bulk pass where every call for chat 1 fails to parse. -/
def c8m2 : Message :=
  { id := 3, telegramMsgID := 3, chatID := 2, userID := 9, topicID := some 0,
    isBot := false, userFirstName := "C", userLastName := none, username := none,
    text := some "z" }

def c8St : SummarizerStore :=
  { messages := [c7m1, c8m2], chatSummaries := [], userSummaries := [] }

def c8Resp : SummarizeResponse :=
  { chatSummary := { summary := "fresh", topics := [("go", 1)], nextEvents := [] },
    userProfiles := [] }

def c8Llm : SummarizeRequest → Except String SummarizeResponse := fun req =>
  if req.chatID == 1 then .error "failed to parse response JSON" else .ok c8Resp

/-- C8 witness: the theorem applied to the concrete bulk pass over chats
[1, 2] where chat 1's parse fails: the run equals the run over [2] alone,
never aborts, and chat 2's summary row is still produced and persisted. -/
theorem C8_witness :
    SummarizeAllActiveChats c8Llm "William" c8St [1, 2] 10
      = SummarizeAllActiveChats c8Llm "William" c8St [2] 10 ∧
    (SummarizeAllActiveChats c8Llm "William" c8St [1, 2] 10).2 = .ok () ∧
    (SummarizeAllActiveChats c8Llm "William" c8St [1, 2] 10).1.chatSummaries
      = [{ id := 0, chatID := 2, topicID := some 0, summary := "fresh",
           topicsJSON := [("go", 1)], nextEvents := none, nextEventsJSON := [] }] := by
  have hb : ∀ req, req.chatID = 1 → c8Llm req = .error "failed to parse response JSON" := by
    intro req h
    simp [c8Llm, h]
  have h := C8_bulk_partial_failure_isolation c8Llm "William" 10 1
    "failed to parse response JSON" hb
  refine ⟨h.2.1 c8St [] [2], h.2.2 c8St [1, 2], ?_⟩
  decide

/-! ### The cumulative LLM request.

Modelled from the spec: the newest `gpt.Client.Summarize` body is absent from
the snapshot - part_016:119-128 calls it with `ExistingChatSummary`,
`ExistingUserSummaries` and `BotName` fields that the older
internal/gpt/client.go in the snapshot does not declare.  Per spec section
4.3 the single request contains the chronological transcript, the existing
chat-level state serialized, the existing per-user state serialized, and an
explicit instruction that this is an update; the prompt layout below mirrors
`Client.SummarizeCumulative` (client.go:117-208), which the spec describes. -/

/-- `s` contains `part` as one contiguous segment. -/
def containsSegment (s part : String) : Prop :=
  ∃ a b, s = a ++ (part ++ b)

theorem containsSegment_refl (s : String) : containsSegment s s :=
  ⟨"", "", by rw [String.empty_append, String.append_empty]⟩

theorem containsSegment_here (part y : String) : containsSegment (part ++ y) part :=
  ⟨"", y, (String.empty_append _).symm⟩

theorem containsSegment_append_left (x y part : String)
    (h : containsSegment y part) : containsSegment (x ++ y) part := by
  obtain ⟨a, b, rfl⟩ := h
  exact ⟨x ++ a, b, (String.append_assoc x a _).symm⟩

theorem containsSegment_trans (s x part : String)
    (h1 : containsSegment s x) (h2 : containsSegment x part) :
    containsSegment s part := by
  obtain ⟨a, b, rfl⟩ := h1
  obtain ⟨c, d, rfl⟩ := h2
  refine ⟨a ++ c, d ++ b, ?_⟩
  rw [String.append_assoc a c, String.append_assoc c (part ++ d) b,
    String.append_assoc part d b]

theorem foldl_append_extends {α : Type} (f : α → String) (l : List α) :
    ∀ init : String, ∃ tail,
      l.foldl (fun acc q => acc ++ f q) init = init ++ tail := by
  induction l with
  | nil =>
    intro init
    exact ⟨"", (String.append_empty init).symm⟩
  | cons q rest ih =>
    intro init
    obtain ⟨t, ht⟩ := ih (init ++ f q)
    exact ⟨f q ++ t, by rw [List.foldl_cons, ht, String.append_assoc]⟩

theorem foldl_append_contains {α : Type} (f : α → String) (l : List α) (x : α)
    (hx : x ∈ l) :
    ∀ init : String,
      containsSegment (l.foldl (fun acc q => acc ++ f q) init) (f x) := by
  induction l with
  | nil => cases hx
  | cons q rest ih =>
    intro init
    rcases List.mem_cons.mp hx with rfl | hx'
    · obtain ⟨t, ht⟩ := foldl_append_extends f rest (init ++ f x)
      rw [List.foldl_cons]
      exact ⟨init, t, by rw [ht, String.append_assoc]⟩
    · rw [List.foldl_cons]
      exact ih hx' (init ++ f q)

/-- The explicit cumulative-update instruction (client.go:128). -/
def cumulativeUpdateInstruction : String :=
  "**IMPORTANT**: This is a CUMULATIVE UPDATE, not a fresh start. Update and enhance existing information rather than replacing it entirely."

/-- The chronological transcript: one "User id: text" line per message with
text, in list order (client.go:119-124). -/
def transcriptText (msgs : List Message) : String :=
  msgs.foldl (fun acc m =>
    acc ++ (match m.text with
      | some t => "User " ++ (toString m.userID ++ (": " ++ (t ++ "\n")))
      | none => "")) ""

/-- Rendering of a stored string-to-count map (stands for `json.Marshal` of
the stored JSON column; the exact byte syntax is irrelevant here). -/
def serializeScoreMap (m : List (String × Int)) : String :=
  m.foldl (fun acc p => acc ++ (p.1 ++ ("=" ++ (toString p.2 ++ ";")))) ""

/-- Rendering of a stored string-to-string map. -/
def serializeTraitMap (m : List (String × String)) : String :=
  m.foldl (fun acc p => acc ++ (p.1 ++ ("=" ++ (p.2 ++ ";")))) ""

/-- The stored chat-level state serialized into the prompt
(client.go:133-148): the stored summary text appears verbatim. -/
def serializeChatState (s : ChatSummary) : String :=
  "=== EXISTING CHAT SUMMARY (to be updated) ===\n"
    ++ ("Summary: "
    ++ (s.summary
    ++ ("\n"
    ++ ((if s.topicsJSON.isEmpty then ""
         else "Topics: " ++ (serializeScoreMap s.topicsJSON ++ "\n"))
    ++ ((match s.nextEvents with
         | some ev => "Next Events: " ++ (ev ++ "\n")
         | none => "")
    ++ "\n")))))

/-- One stored per-user state serialized into the prompt (client.go:151-170). -/
def serializeUserState (p : Int × UserSummary) : String :=
  "User "
    ++ (toString p.1
    ++ (":\n"
    ++ ((if p.2.likesJSON.isEmpty then ""
         else "  Likes: " ++ (serializeScoreMap p.2.likesJSON ++ "\n"))
    ++ ((if p.2.dislikesJSON.isEmpty then ""
         else "  Dislikes: " ++ (serializeScoreMap p.2.dislikesJSON ++ "\n"))
    ++ ((if p.2.competenciesJSON.isEmpty then ""
         else "  Competencies: " ++ (serializeScoreMap p.2.competenciesJSON ++ "\n"))
    ++ ((if p.2.traitsJSON.isEmpty then ""
         else "  Traits: " ++ (serializeTraitMap p.2.traitsJSON ++ "\n"))
    ++ "\n"))))))

/-- The existing-chat-summary section of the prompt (client.go:133-148). -/
def chatStateBlock (req : SummarizeRequest) : String :=
  match req.existingChatSummary with
  | some s => serializeChatState s
  | none => "=== NO EXISTING CHAT SUMMARY ===\n\n"

/-- The existing-user-profiles section of the prompt (client.go:151-173). -/
def userProfilesBlock (req : SummarizeRequest) : String :=
  if req.existingUserSummaries.isEmpty then
    "=== NO EXISTING USER PROFILES ===\n\n"
  else
    "=== EXISTING USER PROFILES (to be updated) ===\n"
      ++ req.existingUserSummaries.foldl (fun acc p => acc ++ serializeUserState p) ""

/-- The closing update request of the prompt (client.go:179-181). -/
def updateRequestText : String :=
  "\nPlease UPDATE the existing summaries and user profiles based on these new messages. Enhance existing information, add new insights, update topic counts, and refine user traits. Do not completely replace existing data - build upon it."

/-- The one chat-completion request sent to the LLM boundary: a system
message and a user message. -/
structure LLMChatRequest where
  system : String
  user : String

/-- The user message of the summarize request (client.go:131-181). -/
def summarizeUserPrompt (req : SummarizeRequest) : String :=
  "Chat ID: "
    ++ (toString req.chatID
    ++ ("\n\n"
    ++ (chatStateBlock req
    ++ (userProfilesBlock req
    ++ ("=== NEW MESSAGES TO ANALYZE ===\n"
    ++ (transcriptText req.messages ++ updateRequestText))))))

/-- The system message: the configured base prompt plus the explicit
cumulative-update instruction (client.go:127-128). -/
def summarizeSystemPrompt (basePrompt : String) : String :=
  basePrompt ++ ("\n\n" ++ cumulativeUpdateInstruction)

/-- The single request `Client.Summarize` sends for a `SummarizeRequest`. -/
def summarizeLLMCall (basePrompt : String) (req : SummarizeRequest) : LLMChatRequest :=
  { system := summarizeSystemPrompt basePrompt
    user := summarizeUserPrompt req }

/-- C2: for every summarization attempt with a non-empty batch, the single
request sent to the LLM boundary contains the chronological transcript (the
batch reversed into oldest-first order), the stored chat-level state
serialized (with the stored summary text verbatim), the stored per-user
state of every one of the batch's senders that has one, serialized, and the
explicit instruction that this is a cumulative update. -/
theorem C2_cumulative_request (basePrompt botName : String) (st : SummarizerStore)
    (chatID : Int) (topicKey : TopicKey) (msgs : List Message)
    (_hne : msgs ≠ []) :
    (summarizeLLMRequest botName st chatID topicKey msgs).messages = msgs.reverse ∧
    containsSegment
      (summarizeLLMCall basePrompt (summarizeLLMRequest botName st chatID topicKey msgs)).user
      (transcriptText ((summarizeLLMRequest botName st chatID topicKey msgs).messages)) ∧
    (∀ s, (summarizeLLMRequest botName st chatID topicKey msgs).existingChatSummary = some s →
      containsSegment
        (summarizeLLMCall basePrompt (summarizeLLMRequest botName st chatID topicKey msgs)).user
        (serializeChatState s) ∧
      containsSegment
        (summarizeLLMCall basePrompt (summarizeLLMRequest botName st chatID topicKey msgs)).user
        s.summary) ∧
    (∀ p ∈ (summarizeLLMRequest botName st chatID topicKey msgs).existingUserSummaries,
      containsSegment
        (summarizeLLMCall basePrompt (summarizeLLMRequest botName st chatID topicKey msgs)).user
        (serializeUserState p)) ∧
    (∀ uid ∈ batchUserIDs ((summarizeLLMRequest botName st chatID topicKey msgs).messages),
      ∀ us, getLatestUserSummary st.userSummaries chatID uid = some us →
      (uid, us) ∈ (summarizeLLMRequest botName st chatID topicKey msgs).existingUserSummaries) ∧
    containsSegment
      (summarizeLLMCall basePrompt (summarizeLLMRequest botName st chatID topicKey msgs)).system
      cumulativeUpdateInstruction := by
  refine ⟨rfl, ?_, ?_, ?_, ?_, ?_⟩
  · show containsSegment (summarizeUserPrompt _) _
    unfold summarizeUserPrompt
    refine containsSegment_append_left _ _ _ ?_
    refine containsSegment_append_left _ _ _ ?_
    refine containsSegment_append_left _ _ _ ?_
    refine containsSegment_append_left _ _ _ ?_
    refine containsSegment_append_left _ _ _ ?_
    refine containsSegment_append_left _ _ _ ?_
    exact containsSegment_here _ _
  · intro s hs
    have hblock : chatStateBlock (summarizeLLMRequest botName st chatID topicKey msgs)
        = serializeChatState s := by
      unfold chatStateBlock
      rw [hs]
    have huser : containsSegment
        (summarizeUserPrompt (summarizeLLMRequest botName st chatID topicKey msgs))
        (serializeChatState s) := by
      unfold summarizeUserPrompt
      rw [hblock]
      refine containsSegment_append_left _ _ _ ?_
      refine containsSegment_append_left _ _ _ ?_
      refine containsSegment_append_left _ _ _ ?_
      exact containsSegment_here _ _
    refine ⟨huser, containsSegment_trans _ _ _ huser ?_⟩
    unfold serializeChatState
    refine containsSegment_append_left _ _ _ ?_
    refine containsSegment_append_left _ _ _ ?_
    exact containsSegment_here _ _
  · intro p hp
    have hne' : ((summarizeLLMRequest botName st chatID topicKey msgs).existingUserSummaries).isEmpty = false := by
      cases hl : (summarizeLLMRequest botName st chatID topicKey msgs).existingUserSummaries with
      | nil => rw [hl] at hp; cases hp
      | cons q rest => rfl
    have hblock : containsSegment
        (userProfilesBlock (summarizeLLMRequest botName st chatID topicKey msgs))
        (serializeUserState p) := by
      unfold userProfilesBlock
      rw [hne']
      simp only [Bool.false_eq_true, if_false]
      exact containsSegment_append_left _ _ _
        (foldl_append_contains serializeUserState _ p hp "")
    show containsSegment (summarizeUserPrompt _) _
    unfold summarizeUserPrompt
    refine containsSegment_trans _ _ _ ?_ hblock
    refine containsSegment_append_left _ _ _ ?_
    refine containsSegment_append_left _ _ _ ?_
    refine containsSegment_append_left _ _ _ ?_
    refine containsSegment_append_left _ _ _ ?_
    exact containsSegment_here _ _
  · intro uid hu us hus
    show (uid, us) ∈ existingUserSummariesFor st.userSummaries chatID (msgs.reverse)
    unfold existingUserSummariesFor
    refine List.mem_filterMap.mpr ⟨uid, hu, ?_⟩
    rw [hus]
  · show containsSegment (summarizeSystemPrompt basePrompt) _
    unfold summarizeSystemPrompt
    refine containsSegment_append_left _ _ _ ?_
    refine containsSegment_append_left _ _ _ ?_
    exact containsSegment_refl _

/-- C2 witness: the theorem applied to a concrete attempt over the batch
[c7m1] with a stored chat summary and a stored sender profile: the request
contains the stored summary text verbatim, the sender's serialized state,
and the cumulative-update instruction. -/
theorem C2_witness :
    containsSegment
      (summarizeLLMCall "SYS" (summarizeLLMRequest "William" c6St 1
        (NewTopicKey (some 1)) [c7m1])).user
      c6Row.summary ∧
    containsSegment
      (summarizeLLMCall "SYS" (summarizeLLMRequest "William" c6St 1
        (NewTopicKey (some 1)) [c7m1])).user
      (serializeUserState (7, c6URow)) ∧
    containsSegment
      (summarizeLLMCall "SYS" (summarizeLLMRequest "William" c6St 1
        (NewTopicKey (some 1)) [c7m1])).system
      cumulativeUpdateInstruction := by
  have h := C2_cumulative_request "SYS" "William" c6St 1 (NewTopicKey (some 1))
    [c7m1] (by decide)
  exact ⟨(h.2.2.1 c6Row rfl).2, h.2.2.2.1 (7, c6URow) (by decide), h.2.2.2.2.2⟩

/-! ### Context Builder (`Builder.BuildContextForResponse`, part_018) -/

/-- `context.BuildContextForResponseParams` (part_018:13-18). -/
structure BuildContextForResponseParams where
  chatID : Int
  topicID : Option Int
  userID : Int
  userName : String
  deriving Repr

/-- `gpt.ContextRequest` as filled by the Context Builder (part_018:67-73);
fields set later by the mention handler (user query, reply context, bot
name) are not part of the builder's output. -/
structure ContextRequest where
  chatSummary : Option ChatSummary
  userSummary : Option UserSummary
  recentMessages : List Message
  userName : String
  userID : Int
  deriving Repr

/-- part_018:51-54: the id bound: the loaded chat summary's row id, or 0
(all messages) when no summary exists for the scope. -/
def lastSummaryID (chatSummary : Option ChatSummary) : Int :=
  match chatSummary with
  | none => 0
  | some s => s.id

/-- `Builder.BuildContextForResponse` (part_018:37-74): load the chat summary
for the exact (chat, topic) scope and the chat-wide user summary, load the
scope's messages with id greater than the summary's id (`query` stands for
the topic-aware repo query `GetMessagesAfterIDInTopic`, whose body is absent
from the snapshot; the C4 claim supplies its contract as a hypothesis), and
keep only the last `recentMessagesLimit` of them. -/
def BuildContextForResponse (query : Int → Option Int → Int → List Message)
    (chatSummaries : List ChatSummary) (userSummaries : List UserSummary)
    (recentMessagesLimit : Nat) (params : BuildContextForResponseParams) :
    ContextRequest :=
  let chatSummary := getLatestChatSummaryByTopic chatSummaries params.chatID params.topicID
  let userSummary := getLatestUserSummary userSummaries params.chatID params.userID
  let recentMessages := query params.chatID params.topicID (lastSummaryID chatSummary)
  let recentMessages :=
    if recentMessagesLimit < recentMessages.length then
      recentMessages.drop (recentMessages.length - recentMessagesLimit)
    else recentMessages
  { chatSummary := chatSummary
    userSummary := userSummary
    recentMessages := recentMessages
    userName := params.userName
    userID := params.userID }

/-- C4: the recent-message list assembled by the Context Builder never
exceeds the configured limit (dropping a prefix - the oldest - when over
it), and - given that the store query returns only messages of the exact
(chat, topic) scope with id greater than the supplied bound - it contains
no message with id at most the loaded chat summary's id, the bound being 0
(all messages of the scope) when no summary exists. -/
theorem C4_context_tail_bound (query : Int → Option Int → Int → List Message)
    (chatSummaries : List ChatSummary) (userSummaries : List UserSummary)
    (limit : Nat) (params : BuildContextForResponseParams)
    (hquery : ∀ c t b, ∀ m ∈ query c t b, m.chatID = c ∧ m.topicID = t ∧ b < m.id) :
    (BuildContextForResponse query chatSummaries userSummaries limit
        params).recentMessages.length ≤ limit ∧
    (BuildContextForResponse query chatSummaries userSummaries limit
        params).recentMessages <:+ query params.chatID params.topicID
      (lastSummaryID (getLatestChatSummaryByTopic chatSummaries params.chatID params.topicID)) ∧
    (∀ m ∈ (BuildContextForResponse query chatSummaries userSummaries limit
        params).recentMessages,
      m.chatID = params.chatID ∧ m.topicID = params.topicID ∧
      lastSummaryID (getLatestChatSummaryByTopic chatSummaries params.chatID
        params.topicID) < m.id) ∧
    (∀ m ∈ (BuildContextForResponse query chatSummaries userSummaries limit
        params).recentMessages,
      ∀ s, getLatestChatSummaryByTopic chatSummaries params.chatID params.topicID
          = some s → s.id < m.id) ∧
    (getLatestChatSummaryByTopic chatSummaries params.chatID params.topicID = none →
      (BuildContextForResponse query chatSummaries userSummaries limit
        params).recentMessages <:+ query params.chatID params.topicID 0) := by
  have hrec : (BuildContextForResponse query chatSummaries userSummaries limit
      params).recentMessages <:+ query params.chatID params.topicID
      (lastSummaryID (getLatestChatSummaryByTopic chatSummaries params.chatID
        params.topicID)) := by
    unfold BuildContextForResponse
    dsimp only
    split
    · exact List.drop_suffix _ _
    · exact List.suffix_refl _
  have hlen : (BuildContextForResponse query chatSummaries userSummaries limit
      params).recentMessages.length ≤ limit := by
    unfold BuildContextForResponse
    dsimp only
    split
    · rw [List.length_drop]
      omega
    · omega
  have hmem : ∀ m ∈ (BuildContextForResponse query chatSummaries userSummaries limit
      params).recentMessages,
      m.chatID = params.chatID ∧ m.topicID = params.topicID ∧
      lastSummaryID (getLatestChatSummaryByTopic chatSummaries params.chatID
        params.topicID) < m.id := by
    intro m hm
    exact hquery _ _ _ m (hrec.subset hm)
  refine ⟨hlen, hrec, hmem, ?_, ?_⟩
  · intro m hm s hs
    have h := (hmem m hm).2.2
    rw [hs] at h
    exact h
  · intro hnone
    have h := hrec
    rw [hnone] at h
    exact h

/-- Concrete builder scenario: a stored summary with row id 10 and three
newer scope messages, limit 2. -/
def c4Summary : ChatSummary :=
  { id := 10, chatID := 1, topicID := some 0, summary := "s", topicsJSON := [],
    nextEvents := none, nextEventsJSON := [] }

def c4msg (i : Int) : Message :=
  { id := i, telegramMsgID := i, chatID := 1, userID := 7, topicID := some 0,
    isBot := false, userFirstName := "A", userLastName := none, username := none,
    text := some "m" }

def c4db : List Message := [c4msg 11, c4msg 12, c4msg 13]

def c4query : Int → Option Int → Int → List Message := fun c t b =>
  c4db.filter (fun m => m.chatID == c && m.topicID == t && decide (b < m.id))

def c4params : BuildContextForResponseParams :=
  { chatID := 1, topicID := some 0, userID := 7, userName := "Ann" }

/-- C4 witness: the theorem applied to the concrete scenario. -/
theorem C4_witness :
    (BuildContextForResponse c4query [c4Summary] [] 2 c4params).recentMessages.length ≤ 2 ∧
    (BuildContextForResponse c4query [c4Summary] [] 2
        c4params).recentMessages <:+ c4query c4params.chatID c4params.topicID
      (lastSummaryID (getLatestChatSummaryByTopic [c4Summary] c4params.chatID
        c4params.topicID)) := by
  have hq : ∀ c t b, ∀ m ∈ c4query c t b,
      m.chatID = c ∧ m.topicID = t ∧ b < m.id := by
    intro c t b m hm
    simp only [c4query, List.mem_filter, Bool.and_eq_true, beq_iff_eq,
      decide_eq_true_eq] at hm
    exact ⟨hm.2.1.1, hm.2.1.2, hm.2.2⟩
  have h := C4_context_tail_bound c4query [c4Summary] [] 2 c4params hq
  exact ⟨h.1, h.2.1⟩
